import Mathlib

/-!
Shallow embedding of the Todo CRUD service (Fastify + Postgres route handlers
in `src/app.ts`).  The store is the `todos` table; each route handler acquires
a pooled connection, issues one parameterized SQL statement, maps the result
to an HTTP response, and releases the connection in a `finally` block.
-/

/-- A row of the `todos` table: `id` (store-assigned), `title`, `completed`. -/
structure Todo where
  id : Nat
  title : String
  completed : Bool
deriving DecidableEq, Repr

/-- The relational store: the rows of the `todos` table together with the
sequence value the store will assign to the next inserted row. -/
structure Store where
  rows : List Todo
  nextId : Nat
deriving DecidableEq, Repr

/-- A JS value passed as a SQL parameter (the handlers pass strings and
booleans). -/
inductive SqlValue where
  | str (s : String)
  | bool (b : Bool)
deriving DecidableEq, Repr

/-- The parameterized SQL statements the four handlers issue, as data:
`SELECT * FROM todos ORDER BY id`, `INSERT ... RETURNING *`,
`UPDATE ... WHERE id = $3 RETURNING *`, `DELETE ... WHERE id = $1`. -/
inductive Stmt where
  | selectAll
  | insert (params : List SqlValue)
  | update (params : List SqlValue)
  | delete (params : List SqlValue)
deriving DecidableEq, Repr

/-- Observable connection-lifecycle events of one request: the connection is
acquired from the pool, a statement is sent on it, it is released. -/
inductive Event where
  | connected
  | queried (stmt : Stmt)
  | released
deriving DecidableEq, Repr

/-- How many times the handler invoked `client.release()`. -/
def releaseCount (evs : List Event) : Nat :=
  evs.countP (fun e => e = Event.released)

/-- How many statements the handler sent on the connection. -/
def queryCount (evs : List Event) : Nat :=
  evs.countP (fun e => match e with | Event.queried _ => true | _ => false)

/-- The body of an HTTP response produced by a handler: a row array (List),
a single row (Create/Update), the fixed error object `{ error: msg }`,
the empty string returned with 204, or JS `undefined` from `rows[0]` on an
empty array. -/
inductive Body where
  | rows (ts : List Todo)
  | row (t : Todo)
  | errObj (msg : String)
  | emptyStr
  | undef
deriving DecidableEq, Repr

/-- An HTTP response: the status set via `reply.code` (200 when unset) and
the returned body. -/
structure Response where
  status : Nat
  body : Body
deriving DecidableEq, Repr

/-- Outcome of awaiting `client.query(...)`: either the promise rejects
(infrastructure failure or store-side rejection) or it resolves with a row
array and an affected-row count (`rowCount`, which node-postgres types as
`number | null`). -/
inductive QueryOutcome where
  | throws
  | resolves (rows : List Todo) (rowCount : Option Int)
deriving DecidableEq, Repr

/-- The result of running one request through a handler: the connection
events that occurred and either a response or a propagated (uncaught)
exception. -/
structure HandlerRun where
  events : List Event
  outcome : Except Unit Response
deriving Repr

/-- The shared shape of all four handlers in `src/app.ts`:
`const client = await fastify.pg.connect(); try { const r = await
client.query(stmt); return respond(r) } finally { client.release() }`.
If `connect` rejects there is no client and nothing further happens; once a
statement outcome is observed the `finally` releases the client whether the
query resolved or threw, and a thrown error is not caught. -/
def runHandler (connectOk : Bool) (stmt : Stmt) (qo : QueryOutcome)
    (respond : List Todo → Option Int → Response) : HandlerRun :=
  if connectOk then
    match qo with
    | QueryOutcome.throws =>
        { events := [Event.connected, Event.queried stmt, Event.released]
          outcome := Except.error () }
    | QueryOutcome.resolves rows rc =>
        { events := [Event.connected, Event.queried stmt, Event.released]
          outcome := Except.ok (respond rows rc) }
  else
    { events := [], outcome := Except.error () }

/-- GET /todos: `return rows` with the default 200 status. -/
def listRespond (rows : List Todo) (_ : Option Int) : Response :=
  { status := 200, body := Body.rows rows }

/-- POST /todos: `reply.code(201); return rows[0]`. -/
def createRespond (rows : List Todo) (_ : Option Int) : Response :=
  { status := 201
    body := match rows.head? with
      | some t => Body.row t
      | none => Body.undef }

/-- PUT /todos/:id: 404 with `{ error: "TODO not found" }` when the RETURNING
row set is empty, otherwise `rows[0]` with the default 200 status. -/
def updateRespond (rows : List Todo) (_ : Option Int) : Response :=
  if rows.length = 0 then
    { status := 404, body := Body.errObj "TODO not found" }
  else
    { status := 200
      body := match rows.head? with
        | some t => Body.row t
        | none => Body.undef }

/-- DELETE /todos/:id: `if (rowCount === 0)` → 404 with the fixed error
payload; otherwise `reply.code(204); return ""`.  JS strict equality means a
`null` rowCount does not equal `0`. -/
def deleteRespond (_ : List Todo) (rc : Option Int) : Response :=
  if rc = some 0 then
    { status := 404, body := Body.errObj "TODO not found" }
  else
    { status := 204, body := Body.emptyStr }

/-- The numeric value of a decimal digit character, `none` otherwise. -/
def digitVal (c : Char) : Option Nat :=
  if c = '0' then some 0 else if c = '1' then some 1
  else if c = '2' then some 2 else if c = '3' then some 3
  else if c = '4' then some 4 else if c = '5' then some 5
  else if c = '6' then some 6 else if c = '7' then some 7
  else if c = '8' then some 8 else if c = '9' then some 9
  else none

/-- Accumulate a decimal number over a character list, failing on the first
non-digit. -/
def parseDigitsAux : List Char → Nat → Option Nat
  | [], acc => some acc
  | c :: cs, acc =>
      match digitVal c with
      | none => none
      | some d => parseDigitsAux cs (acc * 10 + d)

/-- The store's coercion of an `id` parameter (a verbatim string from the
path) to the integer column type: a nonempty all-digit string parses, any
other string is a store-side type error. -/
def parseId (s : String) : Option Nat :=
  match s.data with
  | [] => none
  | c :: cs => parseDigitsAux (c :: cs) 0

/-- `ORDER BY id`: the rows sorted by ascending `id`. -/
def sortById (l : List Todo) : List Todo :=
  List.insertionSort (fun a b => a.id ≤ b.id) l

instance : IsTotal Todo (fun a b => a.id ≤ b.id) :=
  ⟨fun a b => Nat.le_total a.id b.id⟩

instance : IsTrans Todo (fun a b => a.id ≤ b.id) :=
  ⟨fun _ _ _ h1 h2 => Nat.le_trans h1 h2⟩

/-- `UPDATE todos SET title = $1, completed = $2`: a whole-record
replacement of the mutable columns of a row. -/
def updTodo (title : String) (c : Bool) (t : Todo) : Todo :=
  { t with title := title, completed := c }

/-- The store executing the UPDATE statement: coerce the id parameter,
replace `title`/`completed` on every matching row, return the updated
matching rows (RETURNING *) and their number as the affected-row count. -/
def execUpdate (s : Store) (title : String) (c : Bool) (idStr : String) :
    Option (Store × List Todo × Option Int) :=
  match parseId idStr with
  | none => none
  | some n =>
      let returned := (s.rows.filter (fun t => t.id = n)).map (updTodo title c)
      some ({ rows := s.rows.map
                (fun t => if t.id = n then updTodo title c t else t),
              nextId := s.nextId },
        returned, some (Int.ofNat returned.length))

/-- The store executing the DELETE statement: coerce the id parameter,
drop every matching row, return no rows and the number of dropped rows as
the affected-row count. -/
def execDelete (s : Store) (idStr : String) :
    Option (Store × List Todo × Option Int) :=
  match parseId idStr with
  | none => none
  | some n =>
      some ({ rows := s.rows.filter (fun t => ¬ t.id = n),
              nextId := s.nextId },
        [], some (Int.ofNat (s.rows.countP (fun t => t.id = n))))

/-- The Relational Store collaborator executing one statement against the
`todos` table: `none` models a store-side rejection (e.g. a `WHERE id = $n`
parameter that does not parse as an integer, or a parameter list of the
wrong shape); otherwise the new table state, the returned row set and the
affected-row count. -/
def execStore (s : Store) : Stmt → Option (Store × List Todo × Option Int)
  | Stmt.selectAll =>
      some (s, sortById s.rows, some (Int.ofNat s.rows.length))
  | Stmt.insert ps =>
      match ps with
      | [SqlValue.str title, SqlValue.bool c] =>
          let t : Todo := { id := s.nextId, title := title, completed := c }
          some ({ rows := s.rows ++ [t], nextId := s.nextId + 1 }, [t], some 1)
      | _ => none
  | Stmt.update ps =>
      match ps with
      | [SqlValue.str title, SqlValue.bool c, SqlValue.str idStr] =>
          execUpdate s title c idStr
      | _ => none
  | Stmt.delete ps =>
      match ps with
      | [SqlValue.str idStr] => execDelete s idStr
      | _ => none

/-- One full request against the real store: the handler issues `stmt`; the
store either rejects it (the handler observes a throw) or resolves it,
updating the table; the handler maps the outcome through `respond`. -/
def runOp (connectOk : Bool) (stmt : Stmt)
    (respond : List Todo → Option Int → Response) (s : Store) :
    HandlerRun × Store :=
  if connectOk then
    match execStore s stmt with
    | none => (runHandler true stmt QueryOutcome.throws respond, s)
    | some (s2, rows, rc) =>
        (runHandler true stmt (QueryOutcome.resolves rows rc) respond, s2)
  else
    (runHandler false stmt QueryOutcome.throws respond, s)

/-- The request body of POST /todos as the handler sees it: it destructures
only `title`; a `completed` field, if the client supplied one, is carried
here to show it is ignored. -/
structure CreateBody where
  title : String
  completedInput : Option Bool
deriving DecidableEq, Repr

/-- The request body of PUT /todos/:id: a whole-record replacement. -/
structure UpdateBody where
  title : String
  completed : Bool
deriving DecidableEq, Repr

/-- GET /todos. -/
def listOp (connectOk : Bool) (s : Store) : HandlerRun × Store :=
  runOp connectOk Stmt.selectAll listRespond s

/-- POST /todos: `INSERT INTO todos (title, completed) VALUES ($1, $2)
RETURNING *` with parameters `[title, false]`. -/
def createOp (connectOk : Bool) (b : CreateBody) (s : Store) :
    HandlerRun × Store :=
  runOp connectOk (Stmt.insert [SqlValue.str b.title, SqlValue.bool false])
    createRespond s

/-- PUT /todos/:id: `UPDATE todos SET title = $1, completed = $2 WHERE
id = $3 RETURNING *` with parameters `[title, completed, id]`, `id` the raw
path segment. -/
def updateOp (connectOk : Bool) (idStr : String) (b : UpdateBody)
    (s : Store) : HandlerRun × Store :=
  runOp connectOk
    (Stmt.update
      [SqlValue.str b.title, SqlValue.bool b.completed, SqlValue.str idStr])
    updateRespond s

/-- DELETE /todos/:id: `DELETE FROM todos WHERE id = $1` with parameter
`[id]`, `id` the raw path segment. -/
def deleteOp (connectOk : Bool) (idStr : String) (s : Store) :
    HandlerRun × Store :=
  runOp connectOk (Stmt.delete [SqlValue.str idStr]) deleteRespond s

/-! ### Helper lemmas shared between claims -/

theorem releaseCount_runHandler (c : Bool) (stmt : Stmt) (qo : QueryOutcome)
    (respond : List Todo → Option Int → Response) :
    releaseCount (runHandler c stmt qo respond).events =
      if c then 1 else 0 := by
  cases c <;> cases qo <;> rfl

theorem runOp_events (c : Bool) (stmt : Stmt)
    (respond : List Todo → Option Int → Response) (s : Store) :
    (runOp c stmt respond s).1.events =
      if c then [Event.connected, Event.queried stmt, Event.released]
      else [] := by
  cases c
  · rfl
  · show (match execStore s stmt with
      | none => (runHandler true stmt QueryOutcome.throws respond, s)
      | some (s2, rows, rc) =>
          (runHandler true stmt (QueryOutcome.resolves rows rc) respond,
            s2)).1.events = _
    cases execStore s stmt with
    | none => rfl
    | some v =>
        obtain ⟨s2, rows, rc⟩ := v
        rfl

theorem releaseCount_runOp (c : Bool) (stmt : Stmt)
    (respond : List Todo → Option Int → Response) (s : Store) :
    releaseCount (runOp c stmt respond s).1.events =
      if c then 1 else 0 := by
  rw [runOp_events]
  cases c <;> rfl

theorem runOp_of_execStore_none (stmt : Stmt)
    (respond : List Todo → Option Int → Response) (s : Store)
    (h : execStore s stmt = none) :
    (runOp true stmt respond s).1 =
      runHandler true stmt QueryOutcome.throws respond := by
  show (match execStore s stmt with
    | none => (runHandler true stmt QueryOutcome.throws respond, s)
    | some (s2, rows, rc) =>
        (runHandler true stmt (QueryOutcome.resolves rows rc) respond,
          s2)).1 = _
  rw [h]

/-! ### Claims -/

/-- C1: for every request to any of the four operations, the connection
acquired from the pool has its release invoked exactly once on every exit
path — whether the statement resolves or throws (the shared handler shape,
quantified over any statement and any query outcome), and in particular for
List, Create, Update and Delete run against any store state.  When the pool
itself rejects the acquisition there is no connection and no release. -/
theorem release_invoked_exactly_once (c : Bool) (stmt : Stmt)
    (qo : QueryOutcome) (respond : List Todo → Option Int → Response)
    (s : Store) (b : CreateBody) (ub : UpdateBody) (idStr : String) :
    releaseCount (runHandler c stmt qo respond).events =
      (if c then 1 else 0) ∧
    releaseCount (listOp c s).1.events = (if c then 1 else 0) ∧
    releaseCount (createOp c b s).1.events = (if c then 1 else 0) ∧
    releaseCount (updateOp c idStr ub s).1.events = (if c then 1 else 0) ∧
    releaseCount (deleteOp c idStr s).1.events = (if c then 1 else 0) :=
  ⟨releaseCount_runHandler c stmt qo respond,
   releaseCount_runOp c _ _ s,
   releaseCount_runOp c _ _ s,
   releaseCount_runOp c _ _ s,
   releaseCount_runOp c _ _ s⟩

/-- C2: every Create request inserts with `completed` fixed to `false`
regardless of any `completed` value supplied in the request body (the
outcome is the same for every `b.completedInput`), and responds 201 with
the newly created row the store returned from the same INSERT. -/
theorem create_forces_completed_false (b : CreateBody) (s : Store) :
    (createOp true b s).1.outcome =
      Except.ok ⟨201, Body.row ⟨s.nextId, b.title, false⟩⟩ ∧
    (createOp true b s).2 =
      ⟨s.rows ++ [⟨s.nextId, b.title, false⟩], s.nextId + 1⟩ ∧
    (createOp true b s).1.events =
      [Event.connected,
       Event.queried
         (Stmt.insert [SqlValue.str b.title, SqlValue.bool false]),
       Event.released] :=
  ⟨rfl, rfl, rfl⟩

/-- C6: any error while acquiring a connection or executing the statement is
not caught: the handler's outcome is the propagated exception, not a
response, and when the connection had been acquired its release has run
(the trace ends with the release event).  A store-side rejection
(`execStore` returning `none`) takes exactly the throwing path. -/
theorem errors_propagate_uncaught (stmt : Stmt) (qo : QueryOutcome)
    (respond : List Todo → Option Int → Response) (s : Store) :
    (runHandler true stmt QueryOutcome.throws respond).outcome =
      Except.error () ∧
    (runHandler true stmt QueryOutcome.throws respond).events =
      [Event.connected, Event.queried stmt, Event.released] ∧
    (runHandler false stmt qo respond).outcome = Except.error () ∧
    (runHandler false stmt qo respond).events = [] ∧
    (execStore s stmt = none →
      (runOp true stmt respond s).1.outcome = Except.error () ∧
      (runOp true stmt respond s).1.events =
        [Event.connected, Event.queried stmt, Event.released]) := by
  refine ⟨rfl, rfl, ?_, ?_, ?_⟩
  · cases qo <;> rfl
  · cases qo <;> rfl
  · intro h
    rw [runOp_of_execStore_none stmt respond s h]
    exact ⟨rfl, rfl⟩

/-- C6 witness: at a concrete rejected statement (a DELETE whose id
parameter is not numeric) against a concrete store. -/
theorem errors_propagate_uncaught_witness :
    (runOp true (Stmt.delete [SqlValue.str "abc"]) deleteRespond
      ⟨[], 1⟩).1.outcome = Except.error () ∧
    (runOp true (Stmt.delete [SqlValue.str "abc"]) deleteRespond
      ⟨[], 1⟩).1.events =
      [Event.connected, Event.queried (Stmt.delete [SqlValue.str "abc"]),
       Event.released] :=
  (errors_propagate_uncaught (Stmt.delete [SqlValue.str "abc"])
    QueryOutcome.throws deleteRespond ⟨[], 1⟩).2.2.2.2 (by decide)

/-- C7: Update and Delete pass the `:id` path segment to the store as the
SQL parameter exactly as received — the statement in the trace carries the
verbatim string, with no numeric coercion by the handler. -/
theorem id_passed_verbatim (idStr : String) (b : UpdateBody) (s : Store) :
    (updateOp true idStr b s).1.events =
      [Event.connected,
       Event.queried
         (Stmt.update [SqlValue.str b.title, SqlValue.bool b.completed,
           SqlValue.str idStr]),
       Event.released] ∧
    (deleteOp true idStr s).1.events =
      [Event.connected,
       Event.queried (Stmt.delete [SqlValue.str idStr]),
       Event.released] :=
  ⟨runOp_events true _ _ s, runOp_events true _ _ s⟩

/-- C9: the Delete handler responds 404 exactly when the reported rowCount
is strictly equal to 0; a `null` (absent) rowCount or any nonzero count —
including counts above one — yields 204 with an empty body. -/
theorem delete_404_only_on_zero_rowcount (stmt : Stmt)
    (rows : List Todo) (rc : Option Int) :
    (rc = some 0 →
      (runHandler true stmt (QueryOutcome.resolves rows rc)
        deleteRespond).outcome =
        Except.ok ⟨404, Body.errObj "TODO not found"⟩) ∧
    (rc ≠ some 0 →
      (runHandler true stmt (QueryOutcome.resolves rows rc)
        deleteRespond).outcome = Except.ok ⟨204, Body.emptyStr⟩) ∧
    (runHandler true stmt (QueryOutcome.resolves rows none)
      deleteRespond).outcome = Except.ok ⟨204, Body.emptyStr⟩ := by
  refine ⟨?_, ?_, ?_⟩
  · intro h
    show Except.ok (deleteRespond rows rc) = _
    rw [show deleteRespond rows rc = ⟨404, Body.errObj "TODO not found"⟩
      from by rw [deleteRespond, if_pos h]]
  · intro h
    show Except.ok (deleteRespond rows rc) = _
    rw [show deleteRespond rows rc = ⟨204, Body.emptyStr⟩
      from by rw [deleteRespond, if_neg h]]
  · rfl

/-- C9 witness: concrete rowCounts 0, `null` and 2 against a concrete
statement and row set. -/
theorem delete_404_only_on_zero_rowcount_witness :
    ((some 0 : Option Int) = some 0 →
      (runHandler true (Stmt.delete []) (QueryOutcome.resolves [] (some 0))
        deleteRespond).outcome =
        Except.ok ⟨404, Body.errObj "TODO not found"⟩) ∧
    ((some 2 : Option Int) ≠ some 0 →
      (runHandler true (Stmt.delete []) (QueryOutcome.resolves [] (some 2))
        deleteRespond).outcome = Except.ok ⟨204, Body.emptyStr⟩) ∧
    (runHandler true (Stmt.delete []) (QueryOutcome.resolves [] none)
      deleteRespond).outcome = Except.ok ⟨204, Body.emptyStr⟩ :=
  ⟨(delete_404_only_on_zero_rowcount (Stmt.delete []) [] (some 0)).1,
   (delete_404_only_on_zero_rowcount (Stmt.delete []) [] (some 2)).2.1,
   (delete_404_only_on_zero_rowcount (Stmt.delete []) [] none).2.2⟩

/-- C10: List is read-only — the store after a List request equals the store
before it, and the trace contains exactly one statement, the SELECT. -/
theorem list_is_readonly (s : Store) :
    (listOp true s).2 = s ∧
    (listOp true s).1.events =
      [Event.connected, Event.queried Stmt.selectAll, Event.released] ∧
    queryCount (listOp true s).1.events = 1 :=
  ⟨rfl, rfl, rfl⟩

theorem runOp_of_execStore_some (stmt : Stmt)
    (respond : List Todo → Option Int → Response) (s s2 : Store)
    (rows : List Todo) (rc : Option Int)
    (h : execStore s stmt = some (s2, rows, rc)) :
    runOp true stmt respond s =
      (runHandler true stmt (QueryOutcome.resolves rows rc) respond, s2) := by
  show (match execStore s stmt with
    | none => (runHandler true stmt QueryOutcome.throws respond, s)
    | some (s2, rows, rc) =>
        (runHandler true stmt (QueryOutcome.resolves rows rc) respond,
          s2)) = _
  rw [h]

/-- C5: every List request against any store state responds 200 with all
rows of the table in ascending id order (the body is a permutation of the
table sorted by `id`); on the empty table it is the empty sequence, not an
error. -/
theorem list_returns_all_rows_ordered (s : Store) (k : Nat) :
    (listOp true s).1.outcome =
      Except.ok ⟨200, Body.rows (sortById s.rows)⟩ ∧
    List.Perm (sortById s.rows) s.rows ∧
    List.Sorted (fun a b => a.id ≤ b.id) (sortById s.rows) ∧
    (listOp true ⟨[], k⟩).1.outcome = Except.ok ⟨200, Body.rows []⟩ :=
  ⟨rfl, List.perm_insertionSort _ _, List.sorted_insertionSort _ _, rfl⟩

theorem map_ite_id_of_no_match (n : Nat) (title : String) (c : Bool) :
    ∀ rows : List Todo, (∀ t ∈ rows, t.id ≠ n) →
      rows.map (fun t => if t.id = n then updTodo title c t else t) =
        rows := by
  intro rows
  induction rows with
  | nil => intro _; rfl
  | cons hd tl ih =>
      intro h
      simp only [List.map_cons]
      rw [if_neg (h hd (List.mem_cons_self hd tl)),
        ih (fun t ht => h t (List.mem_cons_of_mem hd ht))]

theorem filter_nil_of_no_match (n : Nat) :
    ∀ rows : List Todo, (∀ t ∈ rows, t.id ≠ n) →
      rows.filter (fun t => t.id = n) = [] := by
  intro rows
  induction rows with
  | nil => intro _; rfl
  | cons hd tl ih =>
      intro h
      rw [List.filter_cons_of_neg]
      · exact ih (fun t ht => h t (List.mem_cons_of_mem hd ht))
      · simp only [decide_eq_true_eq]
        exact h hd (List.mem_cons_self hd tl)

theorem filter_head_of_match (n : Nat) (title : String) (c : Bool) :
    ∀ rows : List Todo, (∃ t ∈ rows, t.id = n) →
      ((rows.filter (fun t => t.id = n)).map (updTodo title c)).head? =
        some ⟨n, title, c⟩ ∧
      (rows.filter (fun t => t.id = n)).length ≠ 0 := by
  intro rows
  induction rows with
  | nil => intro h; obtain ⟨t, ht, _⟩ := h; exact absurd ht (List.not_mem_nil t)
  | cons hd tl ih =>
      intro h
      by_cases hhd : hd.id = n
      · rw [List.filter_cons_of_pos (by simp [hhd])]
        refine ⟨?_, by simp⟩
        simp only [List.map_cons, List.head?_cons, Option.some.injEq]
        show updTodo title c hd = _
        rw [updTodo]
        rw [show (⟨n, title, c⟩ : Todo) = ⟨hd.id, title, c⟩ from by rw [hhd]]
      · rw [List.filter_cons_of_neg (by simp [hhd])]
        apply ih
        obtain ⟨t, ht, htid⟩ := h
        rcases List.mem_cons.mp ht with heq | hmem
        · exact absurd (heq ▸ htid) hhd
        · exact ⟨t, hmem, htid⟩

/-- C3: an Update whose coerced id matches zero rows responds 404 with the
fixed payload and leaves the store unchanged; an Update whose id matches a
row responds 200 with the updated row (the whole-record replacement carrying
the target id and the supplied title and completed flag). -/
theorem update_notfound_404_found_200 (idStr : String) (n : Nat)
    (b : UpdateBody) (s : Store) (hp : parseId idStr = some n) :
    ((∀ t ∈ s.rows, t.id ≠ n) →
      (updateOp true idStr b s).1.outcome =
        Except.ok ⟨404, Body.errObj "TODO not found"⟩ ∧
      (updateOp true idStr b s).2 = s) ∧
    ((∃ t ∈ s.rows, t.id = n) →
      (updateOp true idStr b s).1.outcome =
        Except.ok ⟨200, Body.row ⟨n, b.title, b.completed⟩⟩) := by
  have hexec : execStore s
      (Stmt.update [SqlValue.str b.title, SqlValue.bool b.completed,
        SqlValue.str idStr]) =
      some ({ rows := s.rows.map (fun t =>
                if t.id = n then updTodo b.title b.completed t else t),
              nextId := s.nextId },
        (s.rows.filter (fun t => t.id = n)).map
          (updTodo b.title b.completed),
        some (Int.ofNat ((s.rows.filter (fun t => t.id = n)).map
          (updTodo b.title b.completed)).length)) := by
    show execUpdate s b.title b.completed idStr = _
    rw [execUpdate, hp]
  have hrun := runOp_of_execStore_some _ updateRespond s _ _ _ hexec
  constructor
  · intro hno
    have hf := filter_nil_of_no_match n s.rows hno
    have hm := map_ite_id_of_no_match n b.title b.completed s.rows hno
    constructor
    · show (runOp true _ updateRespond s).1.outcome = _
      rw [hrun]
      show Except.ok (updateRespond _ _) = _
      rw [hf]
      rfl
    · show (runOp true _ updateRespond s).2 = _
      rw [hrun, hm]
    
  · intro hyes
    obtain ⟨hhead, hlen⟩ :=
      filter_head_of_match n b.title b.completed s.rows hyes
    show (runOp true _ updateRespond s).1.outcome = _
    rw [hrun]
    show Except.ok (updateRespond _ _) = _
    rw [updateRespond, List.length_map, if_neg hlen, hhead]

/-- C3 witness: a store holding the single row id 1; updating id 2 yields
404 and leaves the store unchanged, updating id 1 yields 200 with the
replaced row. -/
theorem update_notfound_404_found_200_witness :
    ((updateOp true "2" ⟨"b", true⟩ ⟨[⟨1, "a", false⟩], 2⟩).1.outcome =
        Except.ok ⟨404, Body.errObj "TODO not found"⟩ ∧
      (updateOp true "2" ⟨"b", true⟩ ⟨[⟨1, "a", false⟩], 2⟩).2 =
        ⟨[⟨1, "a", false⟩], 2⟩) ∧
    (updateOp true "1" ⟨"b", true⟩ ⟨[⟨1, "a", false⟩], 2⟩).1.outcome =
      Except.ok ⟨200, Body.row ⟨1, "b", true⟩⟩ :=
  ⟨(update_notfound_404_found_200 "2" 2 ⟨"b", true⟩
      ⟨[⟨1, "a", false⟩], 2⟩ rfl).1 (by decide),
   (update_notfound_404_found_200 "1" 1 ⟨"b", true⟩
      ⟨[⟨1, "a", false⟩], 2⟩ rfl).2 ⟨⟨1, "a", false⟩, by decide⟩⟩

/-- C4: a Delete whose executed statement reports zero affected rows
responds 404 with the same fixed payload as Update's not-found case; one
affected row yields 204 with an empty body. -/
theorem delete_zero_404_one_204 (idStr : String) (n : Nat) (s : Store)
    (hp : parseId idStr = some n) :
    (s.rows.countP (fun t => t.id = n) = 0 →
      (deleteOp true idStr s).1.outcome =
        Except.ok ⟨404, Body.errObj "TODO not found"⟩) ∧
    (s.rows.countP (fun t => t.id = n) = 1 →
      (deleteOp true idStr s).1.outcome =
        Except.ok ⟨204, Body.emptyStr⟩) := by
  have hexec : execStore s (Stmt.delete [SqlValue.str idStr]) =
      some ({ rows := s.rows.filter (fun t => ¬ t.id = n),
              nextId := s.nextId },
        [], some (Int.ofNat (s.rows.countP (fun t => t.id = n)))) := by
    show execDelete s idStr = _
    rw [execDelete, hp]
  have hrun := runOp_of_execStore_some _ deleteRespond s _ _ _ hexec
  constructor
  · intro h0
    show (runOp true _ deleteRespond s).1.outcome = _
    rw [hrun]
    show Except.ok (deleteRespond _ _) = _
    rw [h0]
    rfl
  · intro h1
    show (runOp true _ deleteRespond s).1.outcome = _
    rw [hrun]
    show Except.ok (deleteRespond _ _) = _
    rw [h1]
    rfl

/-- C4 witness: deleting id 5 (absent) from a one-row store yields 404;
deleting id 1 (present once) yields 204 with the empty body. -/
theorem delete_zero_404_one_204_witness :
    (deleteOp true "5" ⟨[⟨1, "a", false⟩], 2⟩).1.outcome =
      Except.ok ⟨404, Body.errObj "TODO not found"⟩ ∧
    (deleteOp true "1" ⟨[⟨1, "a", false⟩], 2⟩).1.outcome =
      Except.ok ⟨204, Body.emptyStr⟩ :=
  ⟨(delete_zero_404_one_204 "5" 5 ⟨[⟨1, "a", false⟩], 2⟩ rfl).1 (by decide),
   (delete_zero_404_one_204 "1" 1 ⟨[⟨1, "a", false⟩], 2⟩ rfl).2 (by decide)⟩

/-- C8: Create with title T then List — the Todo returned by the Create
(store-assigned id, `completed:false`) appears exactly once in the listed
sequence, for every store state whose rows do not already use the id the
store will assign next (the store collaborator's id-uniqueness contract). -/
theorem create_then_list_exactly_once (b : CreateBody) (s : Store)
    (hfresh : ∀ t ∈ s.rows, t.id ≠ s.nextId) :
    (createOp true b s).1.outcome =
      Except.ok ⟨201, Body.row ⟨s.nextId, b.title, false⟩⟩ ∧
    (listOp true (createOp true b s).2).1.outcome =
      Except.ok ⟨200,
        Body.rows (sortById (s.rows ++ [⟨s.nextId, b.title, false⟩]))⟩ ∧
    List.count (⟨s.nextId, b.title, false⟩ : Todo)
      (sortById (s.rows ++ [⟨s.nextId, b.title, false⟩])) = 1 := by
  refine ⟨rfl, rfl, ?_⟩
  have hperm := List.perm_insertionSort (fun a b => a.id ≤ b.id)
    (s.rows ++ [⟨s.nextId, b.title, false⟩])
  rw [sortById, hperm.count_eq]
  rw [List.count_append]
  have h0 : List.count (⟨s.nextId, b.title, false⟩ : Todo) s.rows = 0 := by
    rw [List.count_eq_zero]
    intro hmem
    exact hfresh _ hmem rfl
  rw [h0]
  simp

/-- C8 witness: creating "b" in a one-row store (next id 2) and listing
shows the created Todo exactly once. -/
theorem create_then_list_exactly_once_witness :
    List.count (⟨2, "b", false⟩ : Todo)
      (sortById ([⟨1, "a", true⟩] ++ [⟨2, "b", false⟩])) = 1 :=
  (create_then_list_exactly_once ⟨"b", none⟩ ⟨[⟨1, "a", true⟩], 2⟩
    (by decide)).2.2
